import Mathlib

/-!
Verification of the NAUOSLGet email-parsing core (src/email_parser.py)
against its natural-language specification.

The shallow embedding below translates the functions of email_parser.py
that the claims are about:

- `pyIsPrintable` / `cleanAux` / `cleanBody` / `parse_email_bodies`
  embed `parse_email_bodies` (email_parser.py:329-362), the text
  normalizer.
- `isPrefixList` / `subContains` / `strContains` embed the Python
  substring operator `in` used for sender dispatch and subject-tag
  intersection.
- `matchHere` / `searchFrom` / `issueUrlMatches` embed
  `re.search(rf"https://github.com/{cfg_repo}/issues/\d+$", string)`
  (email_parser.py:277, 289): a match exists at some position where the
  literal URL text is followed by one or more digits running to the end
  of the string (or to a single final newline, the Python semantics of
  the dollar anchor without MULTILINE).  The repository identifier is
  interpolated verbatim, so it is treated as literal text; digits are
  modelled by ASCII `Char.isDigit`, faithful for the ASCII inputs used
  in the theorems.
- `subjectTagHere` / `subjectSearchList` / `subjectSearch` embed
  `re.search(r"\(Issue \#\d+\)", entry["subject"])` and `.group()`
  (email_parser.py:276, 308): the leftmost occurrence of the literal
  text `(Issue #` followed by a maximal nonempty digit run followed by
  `)`, returning the matched text.
- `afterLastSlash` embeds `string.rsplit("/", 1)[1]` (email_parser.py:287):
  the text after the last `/`.  The source only applies it to strings
  the URL regex matched, which always contain a slash; on a string with
  no slash Python would raise IndexError, a case guarded out by the
  filter and therefore given the harmless total value of the whole
  string here.
- `processEntry` / `get_issue_num_list` embed `get_issue_num_list`
  (email_parser.py:252-326), including its exceptional behavior:
  `issue_list.append(*issue_num)` (line 318) raises TypeError whenever
  `issue_num` does not have exactly one element.
- `pySorted` embeds Python `sorted` on a list of strings: lexicographic
  comparison of Unicode code points.
- `pyIntOfDigits` embeds `int(...)` on the decimal digit strings that
  occur here.
- `rangeStep` / `driverRange` / `aggregateRange` / `pipelineRun` embed
  the driver steps of `main` (email_parser.py:52-56): indexing
  `issue_list[0]` / `issue_list[-1]` raises IndexError on an empty
  list.

Errors the Python code can raise in the embedded fragment are the
values of `PyError`.
-/

/-- Python exceptions reachable in the embedded code: IndexError from
`issue_list[0]` on an empty list (email_parser.py:55) and TypeError from
`list.append(*args)` called with zero or several arguments
(email_parser.py:318). -/
inductive PyError where
  | indexError : PyError
  | typeError : PyError
deriving DecidableEq, Repr

instance exceptDecEq {ε α : Type} [DecidableEq ε] [DecidableEq α] :
    DecidableEq (Except ε α) := fun a b =>
  match a, b with
  | .ok x, .ok y =>
    if h : x = y then isTrue (by rw [h]) else isFalse (fun hh => h (Except.ok.inj hh))
  | .error x, .error y =>
    if h : x = y then isTrue (by rw [h]) else isFalse (fun hh => h (Except.error.inj hh))
  | .ok _, .error _ => isFalse (fun hh => Except.noConfusion hh)
  | .error _, .ok _ => isFalse (fun hh => Except.noConfusion hh)

/-- A raw message as assembled by `get_email_content_dict`
(email_parser.py:200-206): date, subject, and the body as one text
block. -/
structure RawEmail where
  date : String
  subject : String
  body : String
deriving DecidableEq, Repr

/-- A message after `parse_email_bodies`: the body replaced by the list
of printable fragments (email_parser.py:360). -/
structure CleanedEmail where
  date : String
  subject : String
  body : List String
deriving DecidableEq, Repr

/-- The two configuration values `get_issue_num_list` reads
(email_parser.py:268-269). -/
structure Cfg where
  repo : String
  sender : String
deriving DecidableEq, Repr

/-- Python `char.isprintable()` (email_parser.py:350), faithful on the
ASCII and Latin-1 range: C0 controls, DEL, C1 controls and NBSP are not
printable, the visible ASCII characters and the space are.  Characters
above U+00A0 are treated as printable; Python additionally excludes
some Unicode separator and format characters, none of which occur in
the inputs of the theorems below. -/
def pyIsPrintable (c : Char) : Bool :=
  if c.toNat < 32 then false
  else if c.toNat = 127 then false
  else if 128 ≤ c.toNat && c.toNat ≤ 159 then false
  else if c.toNat = 160 then false
  else true

/-- The character loop of `parse_email_bodies` (email_parser.py:345-357):
printable characters extend the current fragment; a non-printable
character closes the current fragment, appending it to the output when
nonempty.  Like the source, the loop does not append the fragment still
open when the input ends. -/
def cleanAux : List Char → List Char → List String → List String
  | [], _, acc => acc
  | c :: cs, cur, acc =>
    if pyIsPrintable c then cleanAux cs (cur ++ [c]) acc
    else if cur.isEmpty then cleanAux cs [] acc
    else cleanAux cs [] (acc ++ [String.mk cur])

/-- Normalization of one body text (email_parser.py:341-357). -/
def cleanBody (body : String) : List String :=
  cleanAux body.data [] []

/-- `parse_email_bodies` (email_parser.py:329-362): for each entry of
the email dictionary (keys 0,1,... in order), replace the body by its
printable fragments; date and subject entries are not touched. -/
def parse_email_bodies : List RawEmail → List CleanedEmail
  | [] => []
  | e :: es => ⟨e.date, e.subject, cleanBody e.body⟩ :: parse_email_bodies es

/-- Boolean test that the first list is an initial segment of the
second. -/
def isPrefixList : List Char → List Char → Bool
  | [], _ => true
  | _ :: _, [] => false
  | p :: ps, c :: cs => (p = c) && isPrefixList ps cs

/-- Scan helper for the Python substring operator: does `pat` occur at
some position of the list? -/
def subContains (pat : List Char) : List Char → Bool
  | [] => isPrefixList pat []
  | c :: cs => isPrefixList pat (c :: cs) || subContains pat cs

/-- Python `pat in s` on strings (email_parser.py:274, 315): substring
containment. -/
def strContains (s pat : String) : Bool :=
  subContains pat.data s.data

/-- After the literal URL text has been consumed, the regex tail
`\d+$` accepts: one or more digits running to the end of the string or
to a single final newline. -/
def tailOk (rest : List Char) : Bool :=
  !(rest.takeWhile Char.isDigit).isEmpty &&
    ((rest.dropWhile Char.isDigit).isEmpty || rest.dropWhile Char.isDigit = ['\n'])

/-- One position of the `re.search` scan for the issue-creation URL:
the literal pattern text followed by an accepted digit tail. -/
def matchHere (pat cs : List Char) : Bool :=
  isPrefixList pat cs && tailOk (cs.drop pat.length)

/-- The `re.search` scan: try every position left to right. -/
def searchFrom (pat : List Char) : List Char → Bool
  | [] => matchHere pat []
  | c :: cs => matchHere pat (c :: cs) || searchFrom pat cs

/-- `re.search(rf"https://github.com/{cfg_repo}/issues/\d+$", s)` is
not None (email_parser.py:277, 289). -/
def issueUrlMatches (repo : String) (s : String) : Bool :=
  searchFrom ("https://github.com/" ++ repo ++ "/issues/").data s.data

/-- One position of the `re.search` scan for the subject tag
`\(Issue \#\d+\)` (email_parser.py:276): the literal text `(Issue #`,
a maximal nonempty digit run, then `)`; returns the matched text, as
`.group()` does (email_parser.py:315). -/
def subjectTagHere (cs : List Char) : Option String :=
  if isPrefixList "(Issue #".data cs then
    let rest := cs.drop "(Issue #".data.length
    let dd := rest.takeWhile Char.isDigit
    if dd.isEmpty then none
    else
      match rest.dropWhile Char.isDigit with
      | ')' :: _ => some (String.mk ("(Issue #".data ++ dd ++ [')']))
      | _ => none
  else none

/-- Leftmost-position scan for the subject tag. -/
def subjectSearchList : List Char → Option String
  | [] => subjectTagHere []
  | c :: cs =>
    match subjectTagHere (c :: cs) with
    | some g => some g
    | none => subjectSearchList cs

/-- `re.search(r"\(Issue \#\d+\)", subject)` together with `.group()`
(email_parser.py:308, 315): the text of the leftmost tag match, if
any. -/
def subjectSearch (s : String) : Option String :=
  subjectSearchList s.data

/-- `string.rsplit("/", 1)[1]` (email_parser.py:287): the text after
the last slash.  Only applied to strings matched by the URL regex,
which always contain a slash. -/
def afterLastSlash (s : String) : String :=
  String.mk ((s.data.reverse.takeWhile (fun c => c ≠ '/')).reverse)

/-- The body of the per-email loop of `get_issue_num_list`
(email_parser.py:280-318) for the GitHub sender: build the candidate
list from body fragments matching the creation-URL regex, and if it is
nonempty and the subject carries a tag, keep the candidates whose text
occurs in the tag text and run `issue_list.append(*issue_num)` — which
appends the single element when there is exactly one and raises
TypeError otherwise. -/
def processEntry (repo : String) (issue_list : List String) (e : CleanedEmail) :
    Except PyError (List String) :=
  let body_list := (e.body.filter (fun s => issueUrlMatches repo s)).map afterLastSlash
  if body_list.isEmpty then .ok issue_list
  else
    match subjectSearch e.subject with
    | none => .ok issue_list
    | some tag =>
      match body_list.filter (fun num => strContains tag num) with
      | [n] => .ok (issue_list ++ [n])
      | _ => .error .typeError

/-- Lexicographic order on character lists by code point, the order
Python uses to compare strings. -/
def charListLe : List Char → List Char → Bool
  | [], _ => true
  | _ :: _, [] => false
  | a :: as, b :: bs =>
    if a.toNat < b.toNat then true
    else if b.toNat < a.toNat then false
    else charListLe as bs

/-- Python string comparison `a <= b`: lexicographic by code point. -/
def strLe (a b : String) : Bool :=
  charListLe a.data b.data

/-- Python `sorted` insertion: place `x` after the elements that
compare less than or equal to it. -/
def insSorted (x : String) : List String → List String
  | [] => [x]
  | y :: ys => if strLe y x then y :: insSorted x ys else x :: y :: ys

/-- Python `sorted` on a list of strings (email_parser.py:326):
lexicographic comparison of code points. -/
def pySorted (l : List String) : List String :=
  l.foldr insSorted []

/-- The `for entry in email_dict.values()` loop of `get_issue_num_list`
(email_parser.py:280-318): run the loop body on every entry in key
order, threading `issue_list`; an exception raised by the body aborts
the loop. -/
def issueLoop (repo : String) (issue_list : List String) :
    List CleanedEmail → Except PyError (List String)
  | [] => .ok issue_list
  | e :: es =>
    match processEntry repo issue_list e with
    | .ok l => issueLoop repo l es
    | .error err => .error err

/-- `get_issue_num_list` (email_parser.py:252-326).  The GitHub branch
is selected by the substring test `"github" in cfg_sender`
(email_parser.py:274) and runs the per-email loop over the entries in
key order; the Jira branch and the catch-all branch do nothing
(email_parser.py:320-324); the collected identifiers are returned
sorted as strings (email_parser.py:326). -/
def get_issue_num_list (email_dict : List CleanedEmail) (cfg : Cfg) :
    Except PyError (List String) :=
  if strContains cfg.sender "github" then
    match issueLoop cfg.repo [] email_dict with
    | .ok issue_list => .ok (pySorted issue_list)
    | .error err => .error err
  else
    .ok (pySorted [])

/-- Python `int(...)` on a decimal digit string (email_parser.py:55);
the only strings it is applied to are the digit runs extracted by the
URL regex. -/
def pyIntOfDigits (s : String) : Nat :=
  s.data.foldl (fun n c => 10 * n + (c.toNat - 48)) 0

/-- `[int(issue_list[0]), int(issue_list[-1])]` (email_parser.py:55):
on an empty list, `issue_list[0]` raises IndexError. -/
def rangeStep (issue_list : List String) : Except PyError (Nat × Nat) :=
  match issue_list with
  | [] => .error .indexError
  | x :: xs => .ok (pyIntOfDigits x, pyIntOfDigits ((x :: xs).getLast (List.cons_ne_nil x xs)))

/-- The driver steps of `main` from cleaned messages to the issue
range (email_parser.py:52-56). -/
def driverRange (email_dict : List CleanedEmail) (cfg : Cfg) :
    Except PyError (Nat × Nat) :=
  (get_issue_num_list email_dict cfg).bind rangeStep

/-- The aggregation step alone: the sort of the gathered identifiers
(email_parser.py:326) composed with the range endpoints step
(email_parser.py:55). -/
def aggregateRange (ids : List String) : Except PyError (Nat × Nat) :=
  rangeStep (pySorted ids)

/-- The pipeline on raw messages: normalize the bodies
(email_parser.py:158), corroborate and aggregate (email_parser.py:52-56). -/
def pipelineRun (emails : List RawEmail) (cfg : Cfg) :
    Except PyError (Nat × Nat) :=
  driverRange (parse_email_bodies emails) cfg

/-! ## Theorems -/

/-- Claim C1 (refuted as universally stated; the code sorts the
identifier strings lexicographically, not numerically).  Evaluating the
aggregation step of the code at the corroborated identifiers 9 and 10:
the lexicographic sort puts the string 10 before the string 9, so the
returned pair is (10, 9) — not the inclusive range (9, 10) of the
claim, and its first component is not at most its second. -/
theorem aggregate_lex_sort_breaks_range :
    aggregateRange ["9", "10"] = Except.ok (10, 9) ∧ ¬((10 : Nat) ≤ 9) :=
  ⟨by decide, by decide⟩

/-- Claim C2 (refuted as stated): a batch on which corroboration yields
zero identifiers makes the driver fail with the generic IndexError
raised by `issue_list[0]` on the empty list (email_parser.py:55) — a
crash with the ordinary sequence-indexing error, not a dedicated
EmptyResultFailure condition. -/
theorem empty_yield_index_error_cex :
    driverRange [⟨"Mon", "hello", ["nothing here"]⟩] ⟨"acme/widget", "github"⟩ =
      Except.error PyError.indexError := by decide

/-- Claim C2, amended: whenever corroboration yields zero identifiers,
the driver does not return any range (in particular not a default
(0, 0)); it fails with the IndexError raised when indexing the empty
identifier list, the same exception any out-of-range list access
raises. -/
theorem empty_yield_raises_index_error (emails : List CleanedEmail) (cfg : Cfg)
    (h : get_issue_num_list emails cfg = Except.ok []) :
    driverRange emails cfg = Except.error PyError.indexError := by
  unfold driverRange
  rw [h]
  rfl

/-- Witness for the amended claim C2 at the empty batch. -/
theorem empty_yield_raises_index_error_witness :
    driverRange [] ⟨"acme/widget", "github"⟩ = Except.error PyError.indexError :=
  empty_yield_raises_index_error [] ⟨"acme/widget", "github"⟩ (by decide)

/-- Claim C3 (code bug): on the three-message batch — (a) matching link
and matching subject tag for issue 10, (b) no matching link, (c)
matching creation link for issue 23 with subject tag (Issue #7) — the
pipeline does not ignore (c) and produce range (10, 10): processing
message (c) leaves an empty intersection and
`issue_list.append(*issue_num)` (email_parser.py:318) is called with
zero arguments, raising TypeError and aborting the batch. -/
theorem pipeline_mismatched_tag_type_error :
    pipelineRun
      [⟨"Mon", "[acme/widget] Crash on launch (Issue #10)",
         "A new issue was opened:\nhttps://github.com/acme/widget/issues/10\n"⟩,
       ⟨"Tue", "Meeting", "Hello, let us sync up tomorrow.\n"⟩,
       ⟨"Wed", "[acme/widget] Typo in docs (Issue #7)",
         "https://github.com/acme/widget/issues/23\n"⟩]
      ⟨"acme/widget", "github"⟩ = Except.error PyError.typeError := by decide

/-- Claim C4 (code bug): the normalizer drops the fragment still open
when the input ends (the append at email_parser.py:355-356 runs only
when a non-printable character is encountered).  On the body text of
the letter a, a newline and the letter b, the code returns only the
fragment before the newline, so concatenating the output does not
reconstruct the input with its non-printable characters stripped. -/
theorem trailing_fragment_dropped :
    cleanBody "a\nb" = ["a"] ∧
      String.join (cleanBody "a\nb") ≠ String.mk (List.filter pyIsPrintable ("a\nb").data) :=
  ⟨by decide, by decide⟩

/-- Claim C5: a message whose cleaned body fragments include the
acme/widget creation link for issue 42 and whose subject contains the
tag (Issue #42) corroborates, with the GitHub sender and repository
identifier acme/widget, to exactly the identifier 42. -/
theorem corroborate_link_and_tag_returns_42 :
    get_issue_num_list
      [⟨"Mon", "[acme/widget] Widget bug (Issue #42)",
         ["https://github.com/acme/widget/issues/42"]⟩]
      ⟨"acme/widget", "github"⟩ = Except.ok ["42"] := by decide

/-- Claim C6: a message whose body fragments contain a matching
issue-creation link but whose subject has no (Issue #N) tag contributes
no identifier: corroboration of that message alone yields the empty
list, without an error. -/
theorem no_subject_tag_returns_nothing (cfg : Cfg) (e : CleanedEmail)
    (hs : strContains cfg.sender "github" = true)
    (hb : e.body.filter (fun s => issueUrlMatches cfg.repo s) ≠ [])
    (ht : subjectSearch e.subject = none) :
    get_issue_num_list [e] cfg = Except.ok [] := by
  have hpe : processEntry cfg.repo [] e = Except.ok [] := by
    unfold processEntry
    rw [ht]
    cases hie : ((e.body.filter (fun s => issueUrlMatches cfg.repo s)).map afterLastSlash).isEmpty <;>
      simp [hie]
  unfold get_issue_num_list issueLoop
  rw [hs, hpe]
  simp [issueLoop, pySorted]

/-- Witness for claim C6: a creation link in the body with a tagless
subject. -/
theorem no_subject_tag_returns_nothing_witness :
    get_issue_num_list
      [⟨"Mon", "FYI interesting link", ["https://github.com/acme/widget/issues/42"]⟩]
      ⟨"acme/widget", "github"⟩ = Except.ok [] :=
  no_subject_tag_returns_nothing ⟨"acme/widget", "github"⟩
    ⟨"Mon", "FYI interesting link", ["https://github.com/acme/widget/issues/42"]⟩
    (by decide) (by decide) (by decide)

/-- Claim C8: for every email batch and every configured sender value
that does not select the GitHub rule (the Jira stub or any other
unsupported value), corroboration yields nothing for every message: the
returned identifier list is empty and no exception is raised. -/
theorem non_github_sender_yields_empty (emails : List CleanedEmail) (cfg : Cfg)
    (h : strContains cfg.sender "github" = false) :
    get_issue_num_list emails cfg = Except.ok [] := by
  unfold get_issue_num_list
  simp [h, pySorted]

/-- Witness for claim C8: the Jira sender on a message that would
corroborate under the GitHub rule. -/
theorem non_github_sender_yields_empty_witness :
    get_issue_num_list
      [⟨"Mon", "s (Issue #42)", ["https://github.com/acme/widget/issues/42"]⟩]
      ⟨"acme/widget", "jira"⟩ = Except.ok [] :=
  non_github_sender_yields_empty
    [⟨"Mon", "s (Issue #42)", ["https://github.com/acme/widget/issues/42"]⟩]
    ⟨"acme/widget", "jira"⟩ (by decide)

/-- Claim C9: normalization touches only the body of each message
record: at every index of the email dictionary, the date and subject
after `parse_email_bodies` are the values before, and the body is
replaced by the printable fragments of the original body. -/
theorem parse_bodies_frame (emails : List RawEmail) (i : Nat) (h : i < emails.length) :
    ∃ h2 : i < (parse_email_bodies emails).length,
      ((parse_email_bodies emails).get ⟨i, h2⟩).date = (emails.get ⟨i, h⟩).date ∧
      ((parse_email_bodies emails).get ⟨i, h2⟩).subject = (emails.get ⟨i, h⟩).subject ∧
      ((parse_email_bodies emails).get ⟨i, h2⟩).body = cleanBody (emails.get ⟨i, h⟩).body := by
  induction emails generalizing i with
  | nil => simp at h
  | cons e es ih =>
    cases i with
    | zero => exact ⟨by simp [parse_email_bodies], rfl, rfl, rfl⟩
    | succ n =>
      have hn : n < es.length := by simpa using h
      obtain ⟨h2, hd, hs2, hb⟩ := ih n hn
      exact ⟨by simpa [parse_email_bodies] using Nat.succ_lt_succ h2, hd, hs2, hb⟩

/-- Witness for claim C9 at a one-message dictionary. -/
theorem parse_bodies_frame_witness :
    ∃ h2 : 0 < (parse_email_bodies [⟨"Mon", "subj", "a\nb"⟩]).length,
      ((parse_email_bodies [⟨"Mon", "subj", "a\nb"⟩]).get ⟨0, h2⟩).date =
        (([⟨"Mon", "subj", "a\nb"⟩] : List RawEmail).get ⟨0, by decide⟩).date ∧
      ((parse_email_bodies [⟨"Mon", "subj", "a\nb"⟩]).get ⟨0, h2⟩).subject =
        (([⟨"Mon", "subj", "a\nb"⟩] : List RawEmail).get ⟨0, by decide⟩).subject ∧
      ((parse_email_bodies [⟨"Mon", "subj", "a\nb"⟩]).get ⟨0, h2⟩).body =
        cleanBody (([⟨"Mon", "subj", "a\nb"⟩] : List RawEmail).get ⟨0, by decide⟩).body :=
  parse_bodies_frame [⟨"Mon", "subj", "a\nb"⟩] 0 (by decide)

/-- Claim C10: sender dispatch is by substring, not exact match: for
every batch, repository and sender value, the result is the GitHub-rule
result exactly when the sender contains the text github (so a value
such as my-github-fork behaves like github), and is the empty
identifier list otherwise. -/
theorem sender_dispatch_by_substring (emails : List CleanedEmail) (repo sender : String) :
    get_issue_num_list emails ⟨repo, sender⟩ =
      (if strContains sender "github" then get_issue_num_list emails ⟨repo, "github"⟩
       else Except.ok []) := by
  have hg : strContains "github" "github" = true := by decide
  unfold get_issue_num_list
  cases h : strContains sender "github" <;> simp [h, hg, pySorted]

/-- A successful prefix test decomposes the list. -/
theorem isPrefixList_decomp {p l : List Char} (h : isPrefixList p l = true) :
    l = p ++ l.drop p.length := by
  induction p generalizing l with
  | nil => simp
  | cons a as ih =>
    cases l with
    | nil => simp [isPrefixList] at h
    | cons b bs =>
      simp only [isPrefixList, Bool.and_eq_true, decide_eq_true_eq] at h
      obtain ⟨rfl, h2⟩ := h
      rw [List.length_cons, List.drop_succ_cons, List.cons_append]
      exact congrArg (List.cons a) (ih h2)

/-- A successful regex scan decomposes the scanned list into a prefix,
the literal pattern text, and an accepted tail. -/
theorem searchFrom_decomp {pat cs : List Char} (h : searchFrom pat cs = true) :
    ∃ x r, cs = x ++ pat ++ r ∧ tailOk r = true := by
  induction cs with
  | nil =>
    simp only [searchFrom, matchHere, Bool.and_eq_true] at h
    exact ⟨[], List.drop pat.length [], by simpa using isPrefixList_decomp h.1, h.2⟩
  | cons c cs ih =>
    simp only [searchFrom, Bool.or_eq_true] at h
    rcases h with h | h
    · simp only [matchHere, Bool.and_eq_true] at h
      exact ⟨[], List.drop pat.length (c :: cs), by simpa using isPrefixList_decomp h.1, h.2⟩
    · obtain ⟨x, r, hx, hr⟩ := ih h
      exact ⟨c :: x, r, by simp [hx], hr⟩

/-- Every element kept by takeWhile satisfies the predicate. -/
theorem mem_takeWhile_pred {p : Char → Bool} {l : List Char} :
    ∀ x ∈ l.takeWhile p, p x = true := by
  induction l with
  | nil => intro x hx; simp [List.takeWhile] at hx
  | cons a as ih =>
    intro x hx
    by_cases ha : p a = true
    · rw [List.takeWhile_cons_of_pos ha] at hx
      rcases List.mem_cons.mp hx with rfl | hx
      · exact ha
      · exact ih x hx
    · rw [List.takeWhile_cons_of_neg ha] at hx
      simp at hx

/-- dropWhile jumps over a block of satisfying elements and stops at
the first failing one. -/
theorem dropWhile_all_append {p : Char → Bool} {u : List Char} {c : Char} {v : List Char}
    (hu : ∀ x ∈ u, p x = true) (hc : p c = false) :
    List.dropWhile p (u ++ c :: v) = c :: v := by
  induction u with
  | nil =>
    simp only [List.nil_append]
    rw [List.dropWhile_cons_of_neg (by simp [hc])]
  | cons a as ih =>
    have ha : p a = true := hu a (List.mem_cons_self a as)
    simp only [List.cons_append]
    rw [List.dropWhile_cons_of_pos ha]
    exact ih (fun x hx => hu x (List.mem_cons_of_mem a hx))

/-- Claim C7: a body fragment carrying an issue-comment-style link —
the creation URL followed by extra trailing text of the shape seen in
comment permalinks, a hash, the word issuecomment, a dash and a comment
number — is never matched by the creation-link pattern, for every
repository, every surrounding prefix, every issue number and every
comment number, so it contributes no candidate identifier. -/
theorem comment_link_not_creation (repo a d e : String)
    (hd1 : d ≠ "") (hd2 : ∀ c ∈ d.data, c.isDigit = true)
    (he1 : e ≠ "") (he2 : ∀ c ∈ e.data, c.isDigit = true) :
    issueUrlMatches repo
      (a ++ ("https://github.com/" ++ repo ++ "/issues/") ++ d ++ "#issuecomment-" ++ e) =
      false := by
  rw [← Bool.not_eq_true]
  intro hb
  unfold issueUrlMatches at hb
  obtain ⟨x, r, hxr, htr⟩ := searchFrom_decomp hb
  have hrsplit : r = r.takeWhile Char.isDigit ++ r.dropWhile Char.isDigit :=
    (List.takeWhile_append_dropWhile (p := Char.isDigit) (l := r)).symm
  have hdig : ∀ y ∈ (r.takeWhile Char.isDigit).reverse, Char.isDigit y = true := by
    intro y hy
    exact mem_takeWhile_pred y (List.mem_reverse.mp hy)
  have hedig : ∀ y ∈ e.data.reverse, Char.isDigit y = true := by
    intro y hy
    exact he2 y (List.mem_reverse.mp hy)
  have hcase : r.dropWhile Char.isDigit = [] ∨ r.dropWhile Char.isDigit = ['\n'] := by
    simp only [tailOk, Bool.and_eq_true, Bool.or_eq_true, List.isEmpty_eq_true,
      decide_eq_true_eq] at htr
    exact htr.2
  have hsl : ("/issues/" : String).data = ("/issues" : String).data ++ ['/'] := by decide
  have hcl : ("#issuecomment-" : String).data =
      ("#issuecomment" : String).data ++ ['-'] := by decide
  rw [hrsplit] at hxr
  simp only [String.data_append, hsl, hcl, List.append_assoc, List.singleton_append,
    List.cons_append] at hxr
  rcases hcase with hc0 | hc1
  · rw [hc0, List.append_nil] at hxr
    have hdw := congrArg (fun l => List.dropWhile Char.isDigit l.reverse) hxr
    simp only [List.reverse_append, List.reverse_cons, List.reverse_nil, List.append_assoc,
      List.singleton_append, List.cons_append, List.append_nil, List.nil_append] at hdw
    rw [dropWhile_all_append hedig (by decide), dropWhile_all_append hdig (by decide)] at hdw
    injection hdw with h1 h2
    exact absurd h1 (by decide)
  · rw [hc1] at hxr
    have hdw := congrArg (fun l => List.dropWhile Char.isDigit l.reverse) hxr
    simp only [List.reverse_append, List.reverse_cons, List.reverse_nil, List.append_assoc,
      List.singleton_append, List.cons_append, List.append_nil, List.nil_append] at hdw
    rw [dropWhile_all_append hedig (by decide),
      List.dropWhile_cons_of_neg (by decide)] at hdw
    injection hdw with h1 h2
    exact absurd h1 (by decide)

/-- Witness for claim C7 at the spec example, issue 42 and comment
99. -/
theorem comment_link_not_creation_witness :
    issueUrlMatches "acme/widget"
      ("" ++ ("https://github.com/" ++ "acme/widget" ++ "/issues/") ++ "42" ++
        "#issuecomment-" ++ "99") = false :=
  comment_link_not_creation "acme/widget" "" "42" "99"
    (by decide) (by decide) (by decide) (by decide)
